import Mathlib

/-!
Verification development for the online-portfolio-selection engine
(`cryptotrader/agents/apriori.py`).  Numeric code is embedded over `ℚ`;
pandas observation windows become explicit price/holdings records, fallible
Python code returns `Except String`.  Routines that live outside the agents
module (`safe_div`, `array_normalize`, `simplex_proj`, the portfolio-vector
accessor of the core `Agent` base) are modelled from the specification, as
noted on each definition.
-/

namespace Cryptotrader

/-- Element `k` counting from the end (`k = 1` is Python `x[-1]`,
`k = 2` is `x[-2]`); `none` models the `IndexError` Python raises when the
lookback is deeper than the series. -/
def nthFromEnd? (l : List ℚ) (k : ℕ) : Option ℚ :=
  if 1 ≤ k ∧ k ≤ l.length then some (l.getD (l.length - k) 0) else none

/-- Total version of the lookup for call sites whose index is known to be
in range; out of range it yields `0` (such a lookup raises in Python, so
every use below is either guarded or inside an in-range context). -/
def nthFromEnd (l : List ℚ) (k : ℕ) : ℚ :=
  (nthFromEnd? l k).getD 0

/-- Modelled from the spec: safe-division primitive that "returns 0
(or the numerator, by convention) when the denominator is within an epsilon
of zero" (spec 4.2, 7); over `ℚ` the guard is an exact zero test.
The implementation lives in `cryptotrader/utils`, outside `src/`. -/
def safe_div (n d : ℚ) : ℚ :=
  if d = 0 then 0 else n / d

/-- Modelled from the spec: normalization of a non-negative vector to unit
sum used for the step-0 "equal-weight across risky assets" allocation
(spec 4.3); divides every entry by the total.  The implementation
(`array_normalize` in `cryptotrader/utils`) is outside `src/`. -/
def array_normalize (v : List ℚ) : List ℚ :=
  v.map (fun x => x / v.sum)

/-- Insertion of one element into a descending-sorted list. -/
def insertDesc (x : ℚ) : List ℚ → List ℚ
  | [] => [x]
  | y :: ys => if y ≤ x then x :: y :: ys else y :: insertDesc x ys

/-- Sort a rational list in descending order. -/
def sortDesc (l : List ℚ) : List ℚ :=
  l.foldr insertDesc []

/-- Cumulative sums: `(cumsum v)[i] = v[0] + ... + v[i]`. -/
def cumsum : List ℚ → List ℚ
  | [] => []
  | x :: xs => x :: (cumsum xs).map (fun c => x + c)

/-- Modelled from the spec: Euclidean projection onto the probability
simplex (spec 4.1): sort descending, take cumulative sums, pick the largest
index `ρ` with `v_sorted[ρ] + (1 - cumsum[ρ])/(ρ+1) > 0`, set
`τ = (cumsum[ρ] - 1)/(ρ+1)` and return `max (v - τ) 0` elementwise.
The implementation (`simplex_proj` in `cryptotrader/utils`) is outside
`src/`. -/
def simplex_proj (v : List ℚ) : List ℚ :=
  let u := sortDesc v
  let cs := cumsum u
  let good := (List.range v.length).filter
    (fun i => 0 < u.getD i 0 + (1 - cs.getD i 0) / (i + 1 : ℚ))
  let rho := good.getLastD 0
  let tau := (cs.getD rho 0 - 1) / (rho + 1 : ℚ)
  v.map (fun x => max (x - tau) 0)

/-- Observation window handed to a strategy: per risky asset the series of
open prices (oldest first) and the held units, plus the fiat balance.
Mirrors the multi-indexed DataFrame of `obs` (one `open` column per risky
symbol, holdings embedded). -/
structure Obs where
  assets : List (List ℚ)
  units : List ℚ
  fiatUnits : ℚ
  deriving DecidableEq, Repr

/-- `obs.columns.levels[0].shape[0]`: number of symbols, fiat included. -/
def nPairs (obs : Obs) : ℕ :=
  obs.assets.length + 1

/-- Modelled from the spec: the portfolio-vector accessor (spec 4.2, on the
core `Agent` base outside `src/`): each asset's fiat-denominated value
(price at the requested index × held units), fiat balance appended, each
divided safely by the total.  `back = 1` reads the last row (Python index
`-1`), `back = 2` the second-to-last (`-2`). -/
def getPortfolioVector (obs : Obs) (back : ℕ) : List ℚ :=
  let vals := (List.zipWith (fun ser u => nthFromEnd ser back * u)
    obs.assets obs.units) ++ [obs.fiatUnits]
  vals.map (fun v => safe_div v vals.sum)

/-- Whether every asset series retains at least `back` rows, i.e. whether
an `iloc[-back]` / `x[-back]` lookup succeeds on each series. -/
def hasLookback (obs : Obs) (back : ℕ) : Bool :=
  obs.assets.all (fun ser => back ≤ ser.length)

/-- Modelled from the spec: the accessor's row lookup at `iloc[-back]`
raises `IndexError` when the window is shallower than `back` (spec 4.3:
"an index-based lookup legitimately raises an out-of-range condition ...
the error propagates to the caller"); on a sufficient window it returns
the portfolio fractions. -/
def getPortfolioVectorE (obs : Obs) (back : ℕ) : Except String (List ℚ) :=
  if hasLookback obs back then Except.ok (getPortfolioVector obs back)
  else Except.error "IndexError"

/-- `np.ones(n)` followed by `action[-1] = 0`: the unnormalized step-0
allocation every strategy builds (`n ≥ 1`). -/
def initAction (n : ℕ) : List ℚ :=
  List.replicate (n - 1) 1 ++ [0]

/-- Dot product of two rational vectors (`np.dot`). -/
def dotQ (b x : List ℚ) : ℚ :=
  (List.zipWith (· * ·) b x).sum

/-- Arithmetic mean (`np.mean`). -/
def meanQ (x : List ℚ) : ℚ :=
  x.sum / (x.length : ℚ)

/-- Squared Euclidean norm (`np.linalg.norm(·) ** 2`). -/
def sqNorm (x : List ℚ) : ℚ :=
  (x.map (fun t => t * t)).sum

/-- `np.clip` for a scalar. -/
def clipQ (x lo hi : ℚ) : ℚ :=
  min hi (max lo x)

end Cryptotrader

namespace Cryptotrader

/-! ### PAMR (passive aggressive mean reversion), `apriori.py` lines 1174-1262 -/

/-- Persistent fields of a `PAMR` instance (`__init__`, lines 1186-1196,
plus the base class's step counter, line 47). -/
structure PAMRState where
  eps : ℚ
  C : ℚ
  variant : String
  step : ℕ
  deriving DecidableEq, Repr

/-- The value `PAMR.predict` computes on a sufficiently deep window: the
mean-reversion price relative `x[-2]/x[-1]` per risky asset, with `1.0`
appended for fiat. -/
def pamrPredictVal (obs : Obs) : List ℚ :=
  obs.assets.map (fun ser => safe_div (nthFromEnd ser 2) (nthFromEnd ser 1)) ++ [1]

/-- `PAMR.predict` (lines 1198-1205): the `x[-2]` lookup inside the
`apply` lambda raises `IndexError` when some series has fewer than two
rows; otherwise the price-relative vector is returned. -/
def pamrPredict (obs : Obs) : Except String (List ℚ) :=
  if hasLookback obs 2 then Except.ok (pamrPredictVal obs)
  else Except.error "IndexError"

/-- The Lagrange multiplier branch of `PAMR.update` (lines 1240-1250):
variant dispatch, `raise TypeError("Bad variant param.")` on anything else,
then the `min(100000, lam)` truncation.  The plain division `0.5 / self.C`
of the PAMR2 branch raises `ZeroDivisionError` when `C = 0`. -/
def pamrLambda (s : PAMRState) (le denom : ℚ) : Except String ℚ := do
  let lam ←
    if s.variant = "PAMR0" then pure (safe_div le denom)
    else if s.variant = "PAMR1" then pure (min s.C (safe_div le denom))
    else if s.variant = "PAMR2" then
      if s.C = 0 then Except.error "ZeroDivisionError"
      else pure (safe_div le (denom + 0.5 / s.C))
    else Except.error "Bad variant param."
  pure (min 100000 lam)

/-- `PAMR.update` (lines 1223-1256): passive-aggressive loss
`ℓ = max(0, b·x - ε)`, variant-dependent multiplier, step
`b += λ(x - mean x)`, simplex projection of the result. -/
def pamrUpdate (s : PAMRState) (b x : List ℚ) : Except String (List ℚ) := do
  let xMean := meanQ x
  let le := max 0 (dotQ b x - s.eps)
  let lam ← pamrLambda s le (sqNorm (x.map (fun t => t - xMean)))
  let b' := List.zipWith (fun bi xi => bi + lam * (xi - xMean)) b x
  pure (simplex_proj b')

/-- `PAMR.rebalance` (lines 1207-1221): step 0 returns the normalized
risky-only allocation; later steps read the second-to-last portfolio
vector (whose `iloc[-2]` raises `IndexError` on a one-row window) and the
prediction, then run `update`.  The instance state is returned untouched:
the method assigns no attribute. -/
def pamrRebalance (s : PAMRState) (obs : Obs) :
    Except String (PAMRState × List ℚ) := do
  if s.step ≠ 0 then
    let prev ← getPortfolioVectorE obs 2
    let x ← pamrPredict obs
    let v ← pamrUpdate s prev x
    pure (s, v)
  else
    pure (s, array_normalize (initAction (nPairs obs)))

/-- Keyword arguments accepted by `PAMR.set_params` (`eps` and `variant`
mandatory, `C` optional, lines 1258-1262). -/
structure PAMRKwargs where
  eps : Option ℚ
  C : Option ℚ
  variant : Option String
  deriving DecidableEq, Repr

/-- The assignment part of `PAMR.set_params`. -/
def pamrApply (s : PAMRState) (e : ℚ) (c : Option ℚ) (v : String) : PAMRState :=
  { s with eps := e, C := c.getD s.C, variant := v }

/-- `PAMR.set_params` (lines 1258-1262): reads `kwargs['eps']` and
`kwargs['variant']` unconditionally (Python `KeyError` when absent, modelled
as the error case), stores `C` when present.  No value validation occurs. -/
def pamrSetParams (s : PAMRState) (k : PAMRKwargs) : Except String PAMRState :=
  match k.eps, k.variant with
  | some e, some v => Except.ok (pamrApply s e k.C v)
  | _, _ => Except.error "KeyError"

/-- One iteration of the driving backtest loop (`TestAgent.test`,
lines 258-264): call `rebalance`, then `self.step += 1`. -/
def pamrTestStep (s : PAMRState) (obs : Obs) : Except String PAMRState := do
  let (s', _) ← pamrRebalance s obs
  pure { s' with step := s'.step + 1 }

/-- `n` iterations of the backtest loop on a fixed observation. -/
def pamrRun (obs : Obs) (s : PAMRState) : ℕ → Except String PAMRState
  | 0 => Except.ok s
  | n + 1 => do pamrRun obs (← pamrTestStep s obs) n

/-! ### ConstantRebalance, lines 395-423 -/

/-- Persistent fields of a `ConstantRebalance` instance: `self.position`
is `False` (here `none`) until first initialized. -/
structure CRState where
  position : Option (List ℚ)
  deriving DecidableEq, Repr

/-- `ConstantRebalance.predict` (lines 409-415): when `self.position` is
not yet an array it is lazily assigned the normalized risky-only uniform
vector with a `0.0` fiat slot appended — an instance-field mutation —
and the stored position is returned. -/
def crPredict (s : CRState) (obs : Obs) : CRState × List ℚ :=
  match s.position with
  | some p => (s, p)
  | none =>
    let p := array_normalize (List.replicate (nPairs obs - 1) 1) ++ [0]
    ({ s with position := some p }, p)

/-! ### BuyAndHold, lines 370-392 -/

/-- `BuyAndHold.predict` (lines 380-386): step 0 yields the uniform
vector over the `n - 1` risky assets; later steps return the current
portfolio vector without its fiat slot. -/
def bahPredict (step : ℕ) (obs : Obs) : List ℚ :=
  if step = 0 then array_normalize (List.replicate (nPairs obs - 1) 1)
  else (getPortfolioVector obs 1).dropLast

/-- `BuyAndHold.rebalance` (lines 388-392): `position.resize(n)` zero-pads
to full length, then the fiat slot is overwritten with the portfolio's
current fiat fraction. -/
def bahRebalance (step : ℕ) (obs : Obs) : List ℚ :=
  let position := bahPredict step obs
  let padded := position ++ List.replicate (nPairs obs - position.length) 0
  padded.dropLast ++ [nthFromEnd (getPortfolioVector obs 1) 1]

end Cryptotrader

namespace Cryptotrader

/-! ### ONS (online Newton step), lines 427-508.
`self.init` and `self.clip` are read by `ONS` but assigned nowhere inside
`src/` (they come from the core `Agent` base, outside `src/`); following
spec 4.5 they are modelled as state fields: `init` the first-touch flag,
`clip` the gradient clip bound. -/

/-- Persistent fields of an `ONS` instance.  `A` is the accumulated
outer-product matrix, `bvec` the bias vector `self.b`. -/
structure ONSState where
  delta : ℚ
  beta : ℚ
  eta : ℚ
  clip : ℚ
  npairs : ℕ
  A : List (List ℚ)
  bvec : List ℚ
  ini : Bool
  step : ℕ
  deriving DecidableEq, Repr

/-- `np.eye n` as a list of rows. -/
def identityM (n : ℕ) : List (List ℚ) :=
  (List.range n).map (fun i => (List.range n).map (fun j => if i = j then 1 else 0))

/-- Entrywise sum of two matrices. -/
def matAdd (a b : List (List ℚ)) : List (List ℚ) :=
  List.zipWith (List.zipWith (· + ·)) a b

/-- Outer product `g gᵗ`. -/
def outer (g : List ℚ) : List (List ℚ) :=
  g.map (fun gi => g.map (fun gj => gi * gj))

/-- `ONS.predict` (lines 449-452): momentum price relative `x[-1]/x[-2]`
per risky asset with `1.0` appended. -/
def onsPredict (obs : Obs) : List ℚ :=
  obs.assets.map (fun ser => safe_div (nthFromEnd ser 1) (nthFromEnd ser 2)) ++ [1]

/-- The clipped gradient of `ONS.update` (line 474):
`np.clip(safe_div(x, np.dot(b, x)), -clip, clip)` elementwise. -/
def onsGrad (clip : ℚ) (b x : List ℚ) : List ℚ :=
  x.map (fun xi => clipQ (safe_div xi (dotQ b x)) (-clip) clip)

/-- `ONS.update` (lines 472-483).  The constrained quadratic program of
`projection_in_norm` runs through the external `cvxopt` solver and is
abstracted as the argument `qp` receiving `delta`, the updated `A` and the
updated bias; the result is blended with the uniform vector by `eta`. -/
def onsUpdate (qp : ℚ → List (List ℚ) → List ℚ → List ℚ)
    (s : ONSState) (b x : List ℚ) : ONSState × List ℚ :=
  let g := onsGrad s.clip b x
  let A' := matAdd s.A (outer g)
  let b' := List.zipWith (· + ·) s.bvec (g.map (fun gi => (1 + safe_div 1 s.beta) * gi))
  let pp := qp s.delta A' b'
  (⟨s.delta, s.beta, s.eta, s.clip, s.npairs, A', b', s.ini, s.step⟩,
    pp.map (fun p => p * (1 - s.eta) + s.eta / (x.length : ℚ)))

/-- `ONS.rebalance` (lines 454-470): on first use (`not self.init`) the
accumulator `A` is set to the identity and the bias to zeros; step 0
returns the normalized risky-only allocation, later steps update from the
last portfolio vector and the prediction. -/
def onsRebalance (qp : ℚ → List (List ℚ) → List ℚ → List ℚ)
    (s : ONSState) (obs : Obs) : ONSState × List ℚ :=
  let s1 := if s.ini then s else
    { s with npairs := nPairs obs, A := identityM (nPairs obs),
             bvec := List.replicate (nPairs obs) 0, ini := true }
  if s1.step ≠ 0 then
    onsUpdate qp s1 (getPortfolioVector obs 1) (onsPredict obs)
  else
    (s1, array_normalize (initAction (nPairs obs)))

end Cryptotrader

namespace Cryptotrader

/-! ### CWMR (confidence weighted mean reversion), lines 1339-1485.
`stats.norm.ppf` is an external SciPy routine, total on its rational
argument (it yields NaN, not an exception, outside `[0,1]`); it is
abstracted as a function argument `ppf`. -/

/-- Persistent fields of a `CWMR` instance relevant to configuration. -/
structure CWMRState where
  reb : Int
  eps : ℚ
  theta : ℚ
  var : ℚ
  deriving DecidableEq, Repr

/-- `CWMR.__init__` (lines 1349-1367): rejects `confidence` outside
`[0, 1]` with `ValueError`, otherwise stores `eps`, `theta = ppf confidence`
and `var`, and picks the rebalance index. -/
def cwmrInit (ppf : ℚ → ℚ) (eps confidence var : ℚ) (rebalance : Bool) :
    Except String CWMRState :=
  if ¬ (0 ≤ confidence ∧ confidence ≤ 1) then
    Except.error "confidence must be from interval [0,1]"
  else
    Except.ok ⟨if rebalance then -2 else -1, eps, ppf confidence, var⟩

/-- `CWMR.set_params` (lines 1483-1485): assigns `eps` and
`theta = ppf confidence` with no range check and no error path. -/
def cwmrSetParams (ppf : ℚ → ℚ) (s : CWMRState) (eps confidence : ℚ) : CWMRState :=
  { s with eps := eps, theta := ppf confidence }

end Cryptotrader

namespace Cryptotrader

/-! ### HarmonicTrader (Fibonacci pattern detector), lines 1054-1170 -/

/-- Clamp an integer index into `[0, n-1]` (`np.take` with `mode='clip'`,
as used by `scipy.signal.argrelextrema`). -/
def clampIdx (n : ℕ) (i : Int) : ℕ :=
  (max 0 (min ((n : Int) - 1) i)).toNat

/-- One comparison site of `scipy.signal._boolrelextrema`: `data[i]`
strictly dominates (by `cmp`) both clipped neighbours at every shift
`1 ≤ s ≤ order`. -/
def isRelExtremum (cmp : ℚ → ℚ → Bool) (data : List ℚ) (order : ℕ) (i : ℕ) : Bool :=
  (List.range order).all (fun t =>
    let s := (t + 1 : Int)
    cmp (data.getD i 0) (data.getD (clampIdx data.length (i + s)) 0) &&
    cmp (data.getD i 0) (data.getD (clampIdx data.length (i - s)) 0))

/-- Ascending insertion for natural-number indices. -/
def insertAsc (x : ℕ) : List ℕ → List ℕ
  | [] => [x]
  | y :: ys => if x ≤ y then x :: y :: ys else y :: insertAsc x ys

/-- Ascending sort of an index list (`extreme_idx.sort()`). -/
def sortAsc (l : List ℕ) : List ℕ :=
  l.foldr insertAsc []

/-- `HarmonicTrader.find_extreme` (lines 1077-1082): relative maxima and
minima of the open-price series (window `order = peak_order`), plus the last
row index, sorted; returns the prices at those indices. -/
def findExtreme (data : List ℚ) (order : ℕ) : List ℚ :=
  let maxIdx := (List.range data.length).filter
    (fun i => isRelExtremum (fun a b => decide (b < a)) data order i)
  let minIdx := (List.range data.length).filter
    (fun i => isRelExtremum (fun a b => decide (a < b)) data order i)
  let extremeIdx := sortAsc (maxIdx ++ minIdx ++ [data.length - 1])
  extremeIdx.map (fun i => data.getD i 0)

/-- `HarmonicTrader.calc_intervals` (lines 1084-1090): the four legs
between the five most recent extremes; `none` models the `IndexError`
raised by `iloc[-5] … iloc[-2]` when fewer than five extremes exist. -/
def calcIntervals (extremes : List ℚ) : Option (ℚ × ℚ × ℚ × ℚ) :=
  if 5 ≤ extremes.length then
    some (nthFromEnd extremes 2 - nthFromEnd extremes 1,
          nthFromEnd extremes 3 - nthFromEnd extremes 2,
          nthFromEnd extremes 4 - nthFromEnd extremes 3,
          nthFromEnd extremes 5 - nthFromEnd extremes 4)
  else none

/-- `HarmonicTrader.find_pattern` (lines 1092-1113): tests the three leg
ratios against the Fibonacci bands widened by `err_allowed`, returns `1`
for the bullish sign sequence, `-1` for the bearish one, `0` otherwise,
and `0` when the `IndexError` of the interval calculation is caught. -/
def findPattern (data : List ℚ) (order : ℕ) (err : ℚ)
    (c1 c2 c3 : ℚ × ℚ) : Int :=
  match calcIntervals (findExtreme data order) with
  | none => 0
  | some (xa, ab, bc, cd) =>
    let abLo := (c1.1 - err) * |xa|
    let abHi := (c1.2 + err) * |xa|
    let bcLo := (c2.1 - err) * |ab|
    let bcHi := (c2.2 + err) * |ab|
    let cdLo := (c3.1 - err) * |bc|
    let cdHi := (c3.2 + err) * |bc|
    if abLo < |ab| ∧ |ab| < abHi ∧ bcLo < |bc| ∧ |bc| < bcHi ∧
        cdLo < |cd| ∧ |cd| < cdHi then
      if 0 < xa ∧ ab < 0 ∧ 0 < bc ∧ cd < 0 then 1
      else if xa < 0 ∧ 0 < ab ∧ bc < 0 ∧ 0 < cd then -1
      else 0
    else 0

end Cryptotrader

namespace Cryptotrader

/-! ### Pipeline (sequential factor → risk composition), lines 2164-2192 -/

/-- The slice of a sub-strategy's state the pipeline touches: its step
counter and its internal portfolio `self.b`. -/
structure SubState where
  step : ℕ
  b : List ℚ
  deriving DecidableEq, Repr

/-- Persistent fields of a `Pipeline` instance. -/
structure PipeState where
  step : ℕ
  b : List ℚ
  crp : List ℚ
  factor : SubState
  risk : SubState
  deriving DecidableEq, Repr

/-- `Pipeline.rebalance` (lines 2173-2192), generic in the two
sub-strategies' rebalance implementations: step 0 returns the normalized
risky-only allocation; otherwise `factor.b` is seeded from the pipeline's
portfolio, `risk.b` from the factor's output, the risk result is returned,
and only then are both sub-step counters assigned the pipeline's step. -/
def pipeRebalance (frebal grebal : SubState → Obs → SubState × List ℚ)
    (p : PipeState) (obs : Obs) : PipeState × List ℚ :=
  if p.step = 0 then
    let crp := array_normalize (initAction (nPairs obs))
    ({ p with b := crp, crp := crp }, crp)
  else
    let fr := frebal { p.factor with b := p.b } obs
    let rr := grebal { p.risk with b := fr.2 } obs
    ({ p with b := rr.2,
              factor := { fr.1 with step := p.step },
              risk := { rr.1 with step := p.step } }, rr.2)

end Cryptotrader

namespace Cryptotrader

/-! ### `APrioriAgent.fit` (lines 67-203), control-skeleton model.
The external collaborators (`env.optimize_benchmark`, the optunity
`maximize_structured` driver, the batch evaluation `self.test`) are
represented by where an operator's `KeyboardInterrupt` lands.  A
`KeyboardInterrupt` inside `find_hp`'s `try` (lines 120-162) is converted
to `MaximumEvaluationsException`, which the optimizer absorbs before
returning its best parameter set, so the `try` body continues normally;
an interrupt anywhere else reaches the outer `except KeyboardInterrupt`
(lines 198-203), whose `return opt_params, info` reads the local
`opt_params` that is only assigned by line 184. -/

/-- Where the operator cancellation strikes during `fit`. -/
inductive InterruptPoint where
  /-- No interruption: the search runs to completion. -/
  | noInterrupt
  /-- During `env.optimize_benchmark` (line 98), before the optimizer runs. -/
  | duringBenchmark
  /-- Inside `find_hp`'s `try` block during an evaluation (lines 120-162). -/
  | insideFindHp
  /-- Inside `ot.maximize_structured` but outside `find_hp`'s `try`. -/
  | outsideFindHp
  deriving DecidableEq, Repr

/-- Observable outcome of `fit`: the environment's training flag, the
parameter set last applied to the strategy via `set_params` (`none` when
`set_params` was never called after initialization), and either the
returned best parameters or the uncaught Python error. -/
structure FitOutcome where
  training : Bool
  applied : Option ℕ
  result : Except String ℕ
  deriving Repr

/-- `APrioriAgent.fit` (lines 88-203) as a function of the interruption
point and of the best parameter set the optimizer finds (parameter sets
are abstracted to identifiers).  The handler at lines 198-203 sets
`env.training = False` and then evaluates `return opt_params, info`; when
the interrupt arrived before line 184 completed, `opt_params` is an
unassigned local and the statement raises `UnboundLocalError`. -/
def fitModel (ip : InterruptPoint) (best : ℕ) : FitOutcome :=
  match ip with
  | .duringBenchmark => ⟨false, none, Except.error "UnboundLocalError: opt_params"⟩
  | .outsideFindHp => ⟨false, none, Except.error "UnboundLocalError: opt_params"⟩
  | .insideFindHp => ⟨false, some best, Except.ok best⟩
  | .noInterrupt => ⟨false, some best, Except.ok best⟩

end Cryptotrader

namespace Cryptotrader

/-! ### Shared concrete inputs for witnesses and counterexamples -/

/-- A two-asset observation whose holdings are entirely in fiat. -/
def obsFiat : Obs := ⟨[[1], [1]], [0, 0], 1⟩

/-- A two-asset observation with one unit held in each risky asset. -/
def obsTwo : Obs := ⟨[[1, 2], [3, 4]], [1, 1], 1⟩

/-- A fresh default-parameter PAMR1 instance. -/
def pamrDefault : PAMRState := ⟨3/100, 2444, "PAMR1", 0⟩

/-! ### Helper lemmas -/

lemma safe_div_zero_num (d : ℚ) : safe_div 0 d = 0 := by
  unfold safe_div; split <;> simp

lemma sum_map_div (l : List ℚ) (c : ℚ) :
    (l.map (fun x => x / c)).sum = l.sum / c := by
  induction l with
  | nil => simp
  | cons h t ih => simp [ih, add_div]

lemma nthFromEnd_append_singleton (l : List ℚ) (a : ℚ) :
    nthFromEnd (l ++ [a]) 1 = a := by
  unfold nthFromEnd nthFromEnd?
  rw [if_pos ⟨le_refl 1, by simp⟩]
  rw [List.length_append]
  simp only [List.length_singleton, Nat.add_sub_cancel, Option.getD_some]
  rw [List.getD_append_right l [a] 0 l.length (le_refl _)]
  simp

lemma initAction_sum (n : ℕ) : (initAction n).sum = ((n - 1 : ℕ) : ℚ) := by
  simp [initAction, List.sum_replicate, nsmul_eq_mul]

lemma step0_allocation (n : ℕ) (h : 2 ≤ n) :
    (array_normalize (initAction n)).sum = 1 ∧
      nthFromEnd (array_normalize (initAction n)) 1 = 0 := by
  have hc : (initAction n).sum ≠ 0 := by
    rw [initAction_sum]
    exact_mod_cast Nat.sub_ne_zero_of_lt (by omega)
  constructor
  · rw [array_normalize, sum_map_div, div_self hc]
  · rw [array_normalize, initAction, List.map_append]
    simp only [List.map_cons, List.map_nil, zero_div]
    exact nthFromEnd_append_singleton _ 0

/-- Valid PAMR configuration: one of the three documented variants, with a
nonzero `C` where the PAMR2 denominator divides by it. -/
def validVariant (s : PAMRState) : Prop :=
  (s.variant = "PAMR0" ∨ s.variant = "PAMR1" ∨ s.variant = "PAMR2") ∧
    (s.variant = "PAMR2" → s.C ≠ 0)

lemma pamrLambda_isOk (s : PAMRState) (le d : ℚ) (h : validVariant s) :
    ∃ lam, pamrLambda s le d = Except.ok lam := by
  obtain ⟨h1 | h1 | h1, h2⟩ := h
  · refine ⟨100000 ⊓ safe_div le d, ?_⟩
    simp [pamrLambda, h1]
    try (show Except.ok _ = _; rfl)
  · refine ⟨100000 ⊓ (s.C ⊓ safe_div le d), ?_⟩
    simp [pamrLambda, h1]
    try (show Except.ok _ = _; rfl)
  · refine ⟨100000 ⊓ safe_div le (d + 0.5 / s.C), ?_⟩
    simp [pamrLambda, h1, h2 h1]
    try (show Except.ok _ = _; rfl)

lemma pamrUpdate_isOk (s : PAMRState) (b x : List ℚ) (h : validVariant s) :
    ∃ v, pamrUpdate s b x = Except.ok v := by
  obtain ⟨lam, hlam⟩ := pamrLambda_isOk s (max 0 (dotQ b x - s.eps))
    (sqNorm (x.map (fun t => t - meanQ x))) h
  refine ⟨simplex_proj (List.zipWith (fun bi xi => bi + lam * (xi - meanQ x)) b x), ?_⟩
  simp only [pamrUpdate]
  rw [hlam]
  rfl

lemma pamrRebalance_isOk (s : PAMRState) (obs : Obs) (h : validVariant s)
    (hlb : hasLookback obs 2 = true) :
    ∃ v, pamrRebalance s obs = Except.ok (s, v) := by
  by_cases hs : s.step = 0
  · exact ⟨_, by simp [pamrRebalance, hs]; rfl⟩
  · obtain ⟨v, hv⟩ :=
      pamrUpdate_isOk s (getPortfolioVector obs 2) (pamrPredictVal obs) h
    refine ⟨v, ?_⟩
    simp only [pamrRebalance]
    rw [if_pos hs]
    rw [show getPortfolioVectorE obs 2 = Except.ok (getPortfolioVector obs 2) by
      simp [getPortfolioVectorE, hlb]]
    rw [show pamrPredict obs = Except.ok (pamrPredictVal obs) by
      simp [pamrPredict, hlb]]
    show (pamrUpdate s (getPortfolioVector obs 2) (pamrPredictVal obs)).bind _ = _
    rw [hv]
    rfl

lemma pamrTestStep_eq (s : PAMRState) (obs : Obs) (h : validVariant s)
    (hlb : hasLookback obs 2 = true) :
    pamrTestStep s obs = Except.ok { s with step := s.step + 1 } := by
  obtain ⟨v, hv⟩ := pamrRebalance_isOk s obs h hlb
  simp only [pamrTestStep]
  rw [hv]
  rfl

lemma pamrRun_steps (obs : Obs) (hlb : hasLookback obs 2 = true) :
    ∀ (n : ℕ) (s : PAMRState), validVariant s →
      pamrRun obs s n = Except.ok { s with step := s.step + n } := by
  intro n
  induction n with
  | zero => intro s _; simp [pamrRun]
  | succ k ih =>
    intro s h
    simp only [pamrRun]
    rw [pamrTestStep_eq s obs h hlb]
    show pamrRun obs { s with step := s.step + 1 } k = _
    rw [ih { s with step := s.step + 1 } h]
    show Except.ok { s with step := s.step + 1 + k } =
      Except.ok { s with step := s.step + (k + 1) }
    have heq : s.step + 1 + k = s.step + (k + 1) := by omega
    rw [heq]

/-- On the one-row window `obsFiat` the driving loop aborts at its second
iteration: the update path's `iloc[-2]` lookback raises `IndexError`
(modelled by `getPortfolioVectorE`), so the run never reaches counter 2. -/
lemma pamrRun_shallow_window_errors :
    pamrRun obsFiat pamrDefault 2 = Except.error "IndexError" := rfl

lemma zipWith_add_zero_mul (m : ℚ) :
    ∀ (b x : List ℚ), b.length = x.length →
      List.zipWith (fun bi xi => bi + 0 * (xi - m)) b x = b := by
  intro b
  induction b with
  | nil => intro x _; simp
  | cons hd tl ih =>
    intro x h
    cases x with
    | nil => simp at h
    | cons xh xt =>
      rw [List.zipWith_cons_cons, ih xt (by simpa using h)]
      norm_num

end Cryptotrader

namespace Cryptotrader

/-! ### Claims -/

/-- **C3.** For PAMR in any of its three variants (with a positive
aggressiveness constant `C` and dimension-matched vectors), whenever the
previous portfolio `b` and the price-relative vector `x` satisfy
`b·x ≤ ε`, the computed multiplier `λ` is `0` and `update(b, x)` returns
exactly the simplex projection of the unmodified previous portfolio. -/
theorem C3_pamr_no_violation (s : PAMRState) (b x : List ℚ)
    (hv : s.variant = "PAMR0" ∨ s.variant = "PAMR1" ∨ s.variant = "PAMR2")
    (hC : 0 < s.C) (hlen : b.length = x.length)
    (hdot : dotQ b x ≤ s.eps) :
    pamrLambda s (max 0 (dotQ b x - s.eps))
        (sqNorm (x.map (fun t => t - meanQ x))) = Except.ok 0 ∧
      pamrUpdate s b x = Except.ok (simplex_proj b) := by
  have hle : max 0 (dotQ b x - s.eps) = 0 := max_eq_left (by linarith)
  have hlam0 : pamrLambda s 0 (sqNorm (x.map (fun t => t - meanQ x))) =
      Except.ok 0 := by
    rcases hv with h | h | h
    all_goals
      simp [pamrLambda, h, hC.ne', safe_div_zero_num, min_eq_right hC.le,
        pure, Except.pure]
      show Except.ok _ = _
      norm_num
  refine ⟨by rw [hle]; exact hlam0, ?_⟩
  simp only [pamrUpdate]
  rw [hle, hlam0]
  show Except.ok _ = _
  rw [zipWith_add_zero_mul (meanQ x) b x hlen]

/-- Witness for C3 at a concrete PAMR1 instance. -/
theorem C3_pamr_no_violation_witness :
    (pamrDefault.variant = "PAMR0" ∨ pamrDefault.variant = "PAMR1" ∨
        pamrDefault.variant = "PAMR2") ∧ 0 < pamrDefault.C ∧
      ([1/2, 1/2, 0] : List ℚ).length = ([1/100, 1/100, 1] : List ℚ).length ∧
      dotQ [1/2, 1/2, 0] [1/100, 1/100, 1] ≤ pamrDefault.eps ∧
      pamrUpdate pamrDefault [1/2, 1/2, 0] [1/100, 1/100, 1] =
        Except.ok (simplex_proj [1/2, 1/2, 0]) :=
  ⟨Or.inr (Or.inl rfl), by norm_num [pamrDefault], rfl,
    by norm_num [dotQ, pamrDefault, List.zipWith],
    (C3_pamr_no_violation pamrDefault [1/2, 1/2, 0] [1/100, 1/100, 1]
      (Or.inr (Or.inl rfl)) (by norm_num [pamrDefault]) rfl
      (by norm_num [dotQ, pamrDefault, List.zipWith])).2⟩

/-- **C4.** Evaluation of the `fit` control skeleton at the failing
interruption point: a `KeyboardInterrupt` during `env.optimize_benchmark`
(before `ot.maximize_structured` ever assigns `opt_params`) reaches the
handler of lines 198-203, which does reset the training flag but then
raises `UnboundLocalError` from `return opt_params, info` and never
configures the strategy with the best parameters found so far. -/
theorem C4_fit_interrupt_bug :
    fitModel InterruptPoint.duringBenchmark 7 =
      ⟨false, none, Except.error "UnboundLocalError: opt_params"⟩ := rfl

/-- **C7 (amended).** `ConstantRebalance.predict` is idempotent but not
state-preserving: after the lazy first-call initialization of
`self.position`, a second call with the same observation returns the same
value and leaves every instance field unchanged. -/
theorem C7_predict_second_call_pure (s : CRState) (obs : Obs) :
    crPredict (crPredict s obs).1 obs = ((crPredict s obs).1, (crPredict s obs).2) := by
  cases h : s.position <;> simp [crPredict, h]

/-- **C7 counterexample.** `ConstantRebalance.predict` on a fresh instance
(`position = False`) mutates the persistent `position` field, refuting
"predict leaves all instance fields unchanged". -/
theorem C7_predict_mutates_counterexample :
    (crPredict ⟨none⟩ obsFiat).1 = ⟨some [1/2, 1/2, 0]⟩ ∧
      (⟨some [1/2, 1/2, 0]⟩ : CRState) ≠ ⟨none⟩ := by
  constructor
  · norm_num [crPredict, obsFiat, nPairs, array_normalize, List.replicate]
  · simp

/-- **C10.** `CWMR.__init__` succeeds exactly when the confidence lies in
`[0, 1]` and raises `ValueError` otherwise, while `CWMR.set_params`
performs no such range check: it totally assigns `eps` and
`theta = norm.ppf confidence` for any supplied confidence, never
raising. -/
theorem C10_cwmr_confidence_check (ppf : ℚ → ℚ) (e c v : ℚ) (r : Bool)
    (s : CWMRState) (e' c' : ℚ) :
    (cwmrInit ppf e c v r =
        Except.ok ⟨if r then -2 else -1, e, ppf c, v⟩ ↔ 0 ≤ c ∧ c ≤ 1) ∧
      (cwmrInit ppf e c v r =
        Except.error "confidence must be from interval [0,1]" ↔
          ¬ (0 ≤ c ∧ c ≤ 1)) ∧
      cwmrSetParams ppf s e' c' = { s with eps := e', theta := ppf c' } := by
  refine ⟨?_, ?_, rfl⟩ <;> by_cases h : 0 ≤ c ∧ c ≤ 1 <;> simp [cwmrInit, h]

/-- **C1 counterexample.** A single `rebalance` call leaves the step
counter unchanged: on a fresh PAMR instance the counter is still `0`, not
`1`, after one call — `rebalance` itself never increments it (the driving
test loop does, after the call returns). -/
theorem C1_rebalance_counter_counterexample :
    pamrRebalance pamrDefault obsFiat =
        Except.ok (pamrDefault, [1/2, 1/2, 0]) ∧
      pamrDefault.step = 0 ∧ (0 : ℕ) ≠ 1 := by
  refine ⟨?_, rfl, by omega⟩
  norm_num [pamrRebalance, pamrDefault, obsFiat, nPairs, array_normalize,
    initAction, List.replicate, pure, Except.pure]

/-- **C1 (amended).** The step counter starts at 0 and is incremented
exactly once per driving-loop iteration (a `rebalance` call followed by the
loop's `self.step += 1`), so after `n` iterations the counter equals `n` —
provided the window keeps the two rows the update path's lookbacks need
(on a shallower window the `IndexError` of `iloc[-2]` propagates and the
loop aborts instead); `rebalance` itself leaves the counter untouched. -/
theorem C1_step_counter_after_n_iterations (n : ℕ) (s : PAMRState) (obs : Obs)
    (h : validVariant s) (h0 : s.step = 0)
    (hlb : hasLookback obs 2 = true) :
    pamrRun obs s n = Except.ok { s with step := n } := by
  rw [pamrRun_steps obs hlb n s h, h0, Nat.zero_add]

/-- Witness for C1 at three iterations of a fresh PAMR1 instance on a
two-row window (deep enough for every `x[-2]` lookback). -/
theorem C1_step_counter_witness :
    validVariant pamrDefault ∧ pamrDefault.step = 0 ∧
      hasLookback obsTwo 2 = true ∧
      pamrRun obsTwo pamrDefault 3 = Except.ok { pamrDefault with step := 3 } :=
  have hval : validVariant pamrDefault :=
    ⟨Or.inr (Or.inl rfl), fun hx => absurd hx (by decide)⟩
  ⟨hval, rfl, by decide,
    C1_step_counter_after_n_iterations 3 pamrDefault obsTwo hval rfl (by decide)⟩

/-- **C2 counterexample.** `BuyAndHold`'s first rebalance (step counter 0)
on a window whose holdings sit in fiat returns `[1/2, 1/2, 1]`: the vector
does not sum to 1 and its fiat entry is 1, not 0, because lines 388-392
copy the portfolio's current fiat fraction into the last slot. -/
theorem C2_step0_counterexample :
    bahRebalance 0 obsFiat = [1/2, 1/2, 1] ∧
      ¬ (([1/2, 1/2, 1] : List ℚ).sum = 1 ∧
        nthFromEnd ([1/2, 1/2, 1] : List ℚ) 1 = 0) := by
  constructor
  · norm_num [bahRebalance, bahPredict, getPortfolioVector, nthFromEnd,
      nthFromEnd?, safe_div, obsFiat, nPairs, array_normalize, List.zipWith,
      List.replicate]
  · rintro ⟨h1, -⟩
    norm_num at h1

/-- **C2 (amended).** Strategies that special-case step 0 with the
normalized risky-only allocation — PAMR here, and likewise OLMAR, ONS,
CWMR, the test agent — return a first portfolio that sums to 1 with fiat
entry 0; `BuyAndHold` (which copies the current fiat fraction) and
`RandomWalk` (which normalizes a random sample) are the documented
exceptions. -/
theorem C2_pamr_step0_allocation (s : PAMRState) (obs : Obs)
    (h0 : s.step = 0) (hn : 2 ≤ nPairs obs) :
    ∃ v, pamrRebalance s obs = Except.ok (s, v) ∧
      v.sum = 1 ∧ nthFromEnd v 1 = 0 := by
  refine ⟨array_normalize (initAction (nPairs obs)), ?_, step0_allocation _ hn⟩
  simp [pamrRebalance, h0]
  rfl

/-- Witness for C2 on a fresh PAMR instance over a two-asset window. -/
theorem C2_pamr_step0_witness :
    pamrDefault.step = 0 ∧ 2 ≤ nPairs obsFiat ∧
      ∃ v, pamrRebalance pamrDefault obsFiat = Except.ok (pamrDefault, v) ∧
        v.sum = 1 ∧ nthFromEnd v 1 = 0 :=
  ⟨rfl, by decide, C2_pamr_step0_allocation pamrDefault obsFiat rfl (by decide)⟩

/-- **C5.** For ONS on every rebalance at step ≥ 1, the gradient
`x / (b·x)` is clipped elementwise to `±clip` and the accumulators are
updated with the clipped gradient `g`: `A += g gᵗ` and
`b += (1 + 1/β) g`, where `A` and the bias start from the identity matrix
and the zero vector on first use (`init` not yet set) and from their stored
values afterwards. -/
theorem C5_ons_clipped_accumulators (qp : ℚ → List (List ℚ) → List ℚ → List ℚ)
    (s : ONSState) (obs : Obs) (h : s.step ≠ 0) :
    (onsRebalance qp s obs).1.A =
      matAdd (if s.ini then s.A else identityM (nPairs obs))
        (outer (onsGrad s.clip (getPortfolioVector obs 1) (onsPredict obs))) ∧
    (onsRebalance qp s obs).1.bvec =
      List.zipWith (· + ·)
        (if s.ini then s.bvec else List.replicate (nPairs obs) 0)
        ((onsGrad s.clip (getPortfolioVector obs 1) (onsPredict obs)).map
          (fun gi => (1 + safe_div 1 s.beta) * gi)) := by
  by_cases hi : s.ini <;> simp [onsRebalance, onsUpdate, hi, h]

/-- Witness for C5: a first-use ONS instance at step 1 on a two-asset
window, with the external QP solver instantiated trivially. -/
theorem C5_ons_clipped_accumulators_witness :
    (⟨1/8, 1, 0, 100, 0, [], [], false, 1⟩ : ONSState).step ≠ 0 ∧
      ((onsRebalance (fun _ _ _ => [])
          ⟨1/8, 1, 0, 100, 0, [], [], false, 1⟩ obsTwo).1.A =
        matAdd (if (false : Bool) then [] else identityM (nPairs obsTwo))
          (outer (onsGrad 100 (getPortfolioVector obsTwo 1) (onsPredict obsTwo)))) :=
  ⟨by decide,
    (C5_ons_clipped_accumulators (fun _ _ _ => [])
      ⟨1/8, 1, 0, 100, 0, [], [], false, 1⟩ obsTwo (by decide)).1⟩

/-- **C6 counterexample.** `PAMR.set_params` applied with the unrecognized
variant `"FOO"` does not raise: it returns the reconfigured state with the
bad variant stored verbatim, refuting "raises immediately when the
parameter is applied via set_params". -/
theorem C6_set_params_counterexample :
    pamrSetParams pamrDefault ⟨some (1/50), none, some "FOO"⟩ =
      Except.ok ⟨1/50, 2444, "FOO", 0⟩ := rfl

/-- **C6 (amended).** An unrecognized PAMR variant is never silently
defaulted, but the configuration error is deferred, not immediate:
`set_params` stores any supplied variant without validation, and the
`TypeError("Bad variant param.")` is raised only by the next `update`
call (a rebalance at step ≥ 1) that dispatches on the variant. -/
theorem C6_unrecognized_variant_deferred (s : PAMRState) (e : ℚ) (c : Option ℚ)
    (v : String) (b x : List ℚ)
    (h0 : v ≠ "PAMR0") (h1 : v ≠ "PAMR1") (h2 : v ≠ "PAMR2") :
    pamrSetParams s ⟨some e, c, some v⟩ = Except.ok (pamrApply s e c v) ∧
      pamrUpdate (pamrApply s e c v) b x =
        Except.error "Bad variant param." := by
  refine ⟨rfl, ?_⟩
  simp [pamrUpdate, pamrLambda, pamrApply, h0, h1, h2]

/-- Witness for C6 with the variant `"FOO"`. -/
theorem C6_unrecognized_variant_witness :
    ("FOO" : String) ≠ "PAMR0" ∧ ("FOO" : String) ≠ "PAMR1" ∧
      ("FOO" : String) ≠ "PAMR2" ∧
      pamrUpdate (pamrApply pamrDefault (1/50) none "FOO") [1] [1] =
        Except.error "Bad variant param." :=
  ⟨by decide, by decide, by decide,
    (C6_unrecognized_variant_deferred pamrDefault (1/50) none "FOO" [1] [1]
      (by decide) (by decide) (by decide)).2⟩

/-- **C8 counterexample.** A pipeline at step 1 whose factor sub-strategy
reports the step counter it executes under: the factor runs with counter 0
(its output is `[0]`, which the pass-through risk stage returns) while the
pipeline's own counter is 1 — the sub-strategies are synchronized to the
pipeline's counter only after their rebalance calls, so they do not
execute with a counter equal to the pipeline's. -/
theorem C8_pipeline_counter_counterexample :
    (pipeRebalance (fun s _ => (s, [(s.step : ℚ)])) (fun s _ => (s, s.b))
        ⟨1, [1, 0], [1, 0], ⟨0, [1, 0]⟩, ⟨0, [1, 0]⟩⟩ obsFiat).2 = [(0 : ℚ)] ∧
      (⟨1, [1, 0], [1, 0], ⟨0, [1, 0]⟩, ⟨0, [1, 0]⟩⟩ : PipeState).step = 1 ∧
      ((0 : ℚ) ≠ 1) := by
  refine ⟨?_, rfl, by norm_num⟩
  norm_num [pipeRebalance]

/-- **C8 (amended).** On every updating step (`step ≠ 0`),
`Pipeline.rebalance` seeds the factor's internal portfolio from the
pipeline's, seeds the risk strategy's portfolio from the factor's output,
returns the risk strategy's result, and synchronizes both sub-strategies'
step counters to the pipeline's only after the two rebalance calls (during
which each sub-strategy still carries its previous counter). -/
theorem C8_pipeline_dataflow (fr gr : SubState → Obs → SubState × List ℚ)
    (p : PipeState) (obs : Obs) (h : p.step ≠ 0) :
    (pipeRebalance fr gr p obs).2 =
      (gr { p.risk with b := (fr { p.factor with b := p.b } obs).2 } obs).2 ∧
    (pipeRebalance fr gr p obs).1.b =
      (gr { p.risk with b := (fr { p.factor with b := p.b } obs).2 } obs).2 ∧
    (pipeRebalance fr gr p obs).1.factor.step = p.step ∧
    (pipeRebalance fr gr p obs).1.risk.step = p.step := by
  simp [pipeRebalance, h]

/-- Witness for C8 with concrete sub-strategies at pipeline step 1. -/
theorem C8_pipeline_dataflow_witness :
    (⟨1, [1, 0], [1, 0], ⟨0, [1, 0]⟩, ⟨0, [1, 0]⟩⟩ : PipeState).step ≠ 0 ∧
      (pipeRebalance (fun s _ => (s, [(s.step : ℚ)])) (fun s _ => (s, s.b))
          ⟨1, [1, 0], [1, 0], ⟨0, [1, 0]⟩, ⟨0, [1, 0]⟩⟩ obsFiat).1.factor.step =
        (⟨1, [1, 0], [1, 0], ⟨0, [1, 0]⟩, ⟨0, [1, 0]⟩⟩ : PipeState).step :=
  ⟨by decide,
    (C8_pipeline_dataflow (fun s _ => (s, [(s.step : ℚ)])) (fun s _ => (s, s.b))
      ⟨1, [1, 0], [1, 0], ⟨0, [1, 0]⟩, ⟨0, [1, 0]⟩⟩ obsFiat (by decide)).2.2.1⟩

/-- **C9.** For every single-asset price series, `find_pattern` (and hence
`is_gartley`, `is_butterfly`, `is_bat`, `is_crab`, which call it at fixed
ratio bands) returns a value in `{-1, 0, 1}`, and returns `0` rather than
raising whenever fewer than five extremes exist so the interval
calculation would be out of range. -/
theorem C9_find_pattern_range (data : List ℚ) (order : ℕ) (err : ℚ)
    (c1 c2 c3 : ℚ × ℚ) :
    (findPattern data order err c1 c2 c3 = 1 ∨
      findPattern data order err c1 c2 c3 = 0 ∨
      findPattern data order err c1 c2 c3 = -1) ∧
    ((findExtreme data order).length < 5 →
      findPattern data order err c1 c2 c3 = 0) := by
  constructor
  · unfold findPattern
    cases h : calcIntervals (findExtreme data order) with
    | none => simp
    | some q =>
      obtain ⟨xa, ab, bc, cd⟩ := q
      dsimp only
      split_ifs <;> simp
  · intro hlen
    unfold findPattern
    have hnone : calcIntervals (findExtreme data order) = none := by
      unfold calcIntervals
      rw [if_neg]
      omega
    rw [hnone]

/-- Witness for C9: a three-point monotone series has a single extreme
(the appended last index), and the Gartley-band detector returns 0. -/
theorem C9_find_pattern_witness :
    (findExtreme [1, 2, 3] 7).length < 5 ∧
      findPattern [1, 2, 3] 7 (5/100) (0.618, 0.618) (0.382, 0.886)
        (1.27, 1.618) = 0 :=
  ⟨by decide,
    (C9_find_pattern_range [1, 2, 3] 7 (5/100) (0.618, 0.618) (0.382, 0.886)
      (1.27, 1.618)).2 (by decide)⟩

end Cryptotrader

